import Mathlib

/-!
Verification of the Scallywag-Engine repository: a minimal Direct3D 12
program in two variants, `src/main.cpp` (clears the back buffer and draws
one triangle each frame) and `src/dx12window.cpp` (clear only).  The
development shallowly embeds the per-frame protocol of the `Render`
functions, the fence synchronisation, the command-list open/close
discipline, the vertex-buffer initialisation and the host (`WinMain`)
control flow, and proves or refutes the frozen specification claims
about them.  Opaque COM handles are modelled as natural numbers; 32-bit
float literals of the source are modelled as the rational numbers the
source text denotes.
-/

set_option autoImplicit false

namespace DX12

/-- Viewport record, translated from `D3D12_VIEWPORT vp{0,0,800,600,0,1}`
(src/main.cpp line 291).  Float fields become rationals. -/
structure Viewport where
  topLeftX : ℚ
  topLeftY : ℚ
  width : ℚ
  height : ℚ
  minDepth : ℚ
  maxDepth : ℚ
deriving DecidableEq, Repr

/-- Scissor rectangle, translated from `D3D12_RECT scissor{0,0,800,600}`
(src/main.cpp line 292). -/
structure Rect where
  left : Int
  top : Int
  right : Int
  bottom : Int
deriving DecidableEq, Repr

/-- RGBA colour; the four `float` components of the source are modelled
as rationals. -/
structure Color where
  r : ℚ
  g : ℚ
  b : ℚ
  a : ℚ
deriving DecidableEq, Repr

/-- Vertex buffer view, translated from `D3D12_VERTEX_BUFFER_VIEW` as
the source uses it (src/main.cpp lines 274-276): GPU address, byte
stride, and the non-standard size-in-elements field. -/
structure VBView where
  bufferLocation : Nat
  strideInBytes : Nat
  sizeInElements : Nat
deriving DecidableEq, Repr

/-- Primitive topology values the source mentions. -/
inductive PrimTopology where
  | triangleList
deriving DecidableEq, Repr

/-- Resource states relevant to the back-buffer barrier question
(PRESENT / RENDER_TARGET transitions). -/
inductive ResState where
  | present
  | renderTarget
deriving DecidableEq, Repr

/-- One observable D3D12 / DXGI call issued by a `Render` call, in
program order.  Constructors mirror the API calls appearing in
src/main.cpp lines 283-326 and src/dx12window.cpp lines 97-126; the
`resourceBarrier` constructor exists so that the absence of barrier
calls is expressible. -/
inductive GpuEvent where
  | allocatorReset
  | listReset (pipelineState : Option Nat)
  | rsSetViewports (num : Nat) (vp : Viewport)
  | rsSetScissorRects (num : Nat) (rect : Rect)
  | omSetRenderTargets (num : Nat) (handle : Nat) (singleHandle : Bool) (depth : Option Nat)
  | clearRenderTargetView (handle : Nat) (color : Color)
  | iaSetPrimitiveTopology (t : PrimTopology)
  | iaSetVertexBuffers (startSlot : Nat) (numViews : Nat) (view : VBView)
  | drawInstanced (vertexCount instanceCount startVertex startInstance : Nat)
  | close
  | executeCommandLists (count : Nat)
  | present (syncInterval : Nat) (flags : Nat)
  | signal (fence : Nat) (value : Nat)
  | setEventOnCompletion (value : Nat) (event : Nat)
  | waitForSingleObjectInfinite (event : Nat)
  | resourceBarrier (resource : Nat) (before after : ResState)
deriving DecidableEq, Repr

/-- The program's global variables (src/main.cpp lines 19-47 and
src/dx12window.cpp lines 10-21).  COM interface pointers are opaque
handles; `fenceValue` is the CPU-side next-signal counter
(`g_fenceValue`) and `frameIndex` is `g_frameIndex`. -/
structure Globals where
  device : Nat
  swapChain : Nat
  commandQueue : Nat
  commandAllocator : Nat
  commandList : Nat
  rtvHeap : Nat
  rtvHeapStart : Nat
  fence : Nat
  fenceValue : Nat
  fenceEvent : Nat
  renderTarget0 : Nat
  renderTarget1 : Nat
  frameIndex : Nat
  rootSig : Nat
  pipelineState : Nat
  vertexBuffer : Nat
  vbView : VBView
deriving DecidableEq, Repr

/-- External state the program observes: the swap chain's current
back-buffer index, the GPU fence's completed value, the last value
signalled on the queue, and the device-reported RTV descriptor stride
(`GetDescriptorHandleIncrementSize`). -/
structure World where
  scIndex : Nat
  fenceCompleted : Nat
  lastSignaled : Nat
  rtvStride : Nat
deriving DecidableEq, Repr

/-- A point in the execution: the program globals, the external world,
and the log of API calls issued so far. -/
structure Frame where
  g : Globals
  w : World
  log : List GpuEvent
deriving DecidableEq, Repr

/-- Append one API call to the frame's log. -/
def emit (e : GpuEvent) (f : Frame) : Frame :=
  { f with log := f.log ++ [e] }

/-- Translated from `g_commandAllocator->Reset()` (main.cpp line 287,
dx12window.cpp line 101). -/
def allocResetStep (f : Frame) : Frame :=
  emit .allocatorReset f

/-- Translated from `g_commandList->Reset(g_commandAllocator.Get(),
g_pipelineState.Get())` (main.cpp line 288): the triangle variant
resets the list with the pipeline state. -/
def listResetWithPSO (f : Frame) : Frame :=
  emit (.listReset (some f.g.pipelineState)) f

/-- Translated from `g_commandList->Reset(g_commandAllocator.Get(),
nullptr)` (dx12window.cpp line 102): the clear-only variant resets the
list with a null initial pipeline state. -/
def listResetNull (f : Frame) : Frame :=
  emit (.listReset none) f

/-- The viewport literal of main.cpp line 291. -/
def mainViewport : Viewport :=
  { topLeftX := 0, topLeftY := 0, width := 800, height := 600,
    minDepth := 0, maxDepth := 1 }

/-- The scissor literal of main.cpp line 292. -/
def mainScissor : Rect :=
  { left := 0, top := 0, right := 800, bottom := 600 }

/-- Translated from `RSSetViewports(1, &vp)` and
`RSSetScissorRects(1, &scissor)` (main.cpp lines 293-294). -/
def viewportScissorStep (f : Frame) : Frame :=
  emit (.rsSetScissorRects 1 mainScissor) (emit (.rsSetViewports 1 mainViewport) f)

/-- The RTV handle computation of main.cpp lines 297-299 and
dx12window.cpp lines 105-107: heap start plus `g_frameIndex` times the
device-reported increment size. -/
def rtvHandle (g : Globals) (w : World) : Nat :=
  g.rtvHeapStart + g.frameIndex * w.rtvStride

/-- Translated from `OMSetRenderTargets(1, &rtvHandle, FALSE, nullptr)`
(main.cpp line 300). -/
def omSetStep (f : Frame) : Frame :=
  emit (.omSetRenderTargets 1 (rtvHandle f.g f.w) false none) f

/-- The clear colour literal `{0.2f, 0.4f, 0.6f, 1.0f}` of
main.cpp line 285 / dx12window.cpp line 99. -/
def clearColor : Color :=
  { r := 1/5, g := 2/5, b := 3/5, a := 1 }

/-- Translated from `ClearRenderTargetView(rtvHandle, clearColor, 0,
nullptr)` (main.cpp line 303, dx12window.cpp line 109). -/
def clearStep (f : Frame) : Frame :=
  emit (.clearRenderTargetView (rtvHandle f.g f.w) clearColor) f

/-- Translated from main.cpp lines 306-308: set TRIANGLELIST topology,
bind the vertex buffer view at slot 0, `DrawInstanced(3, 1, 0, 0)`. -/
def drawStep (f : Frame) : Frame :=
  emit (.drawInstanced 3 1 0 0)
    (emit (.iaSetVertexBuffers 0 1 f.g.vbView)
      (emit (.iaSetPrimitiveTopology .triangleList) f))

/-- Translated from `g_commandList->Close()` (main.cpp line 310,
dx12window.cpp line 110). -/
def closeStep (f : Frame) : Frame :=
  emit .close f

/-- Translated from `ExecuteCommandLists(_countof(lists), lists)` with
a one-element array (main.cpp lines 312-313, dx12window.cpp
lines 112-113). -/
def executeStep (f : Frame) : Frame :=
  emit (.executeCommandLists 1) f

/-- Translated from `g_swapChain->Present(1, 0)` (main.cpp line 315,
dx12window.cpp line 115).  The effect on `CurrentBackBufferIndex` is
modelled from the spec, sections 3 and 8: a 2-buffer flip-discard chain
alternates the index, `0, 1, 0, 1, ...`. -/
def presentStep (f : Frame) : Frame :=
  emit (.present 1 0) { f with w := { f.w with scIndex := (f.w.scIndex + 1) % 2 } }

/-- Translated from `g_commandQueue->Signal(g_fence.Get(), g_fenceValue)`
(main.cpp line 318, dx12window.cpp line 118). -/
def signalStep (f : Frame) : Frame :=
  emit (.signal f.g.fence f.g.fenceValue)
    { f with w := { f.w with lastSignaled := f.g.fenceValue } }

/-- Translated from the end-of-frame wait (main.cpp lines 319-323,
dx12window.cpp lines 119-123): if `GetCompletedValue() < g_fenceValue`,
`SetEventOnCompletion(g_fenceValue, g_fenceEvent)` then an infinite
`WaitForSingleObject`; else nothing.  `obs` is the value the GPU fence
has reached when `GetCompletedValue` is called; after a wait the fence
has reached exactly the signalled value (the fence cannot pass the last
value signalled on the queue). -/
def waitForGPUStep (obs : Nat) (f : Frame) : Frame :=
  if obs < f.g.fenceValue then
    emit (.waitForSingleObjectInfinite f.g.fenceEvent)
      (emit (.setEventOnCompletion f.g.fenceValue f.g.fenceEvent)
        { f with w := { f.w with fenceCompleted := f.g.fenceValue } })
  else
    { f with w := { f.w with fenceCompleted := obs } }

/-- Translated from `++g_fenceValue; g_frameIndex =
g_swapChain->GetCurrentBackBufferIndex()` (main.cpp lines 324-325,
dx12window.cpp lines 124-125). -/
def advanceStep (f : Frame) : Frame :=
  { f with g := { f.g with fenceValue := f.g.fenceValue + 1, frameIndex := f.w.scIndex } }

/-- The record-and-submit part of the triangle variant's `Render`
(src/main.cpp lines 283-315), as a pipeline of the steps above in
source order, up to and including `Present`. -/
def recordSubmitTri (f : Frame) : Frame :=
  f |> allocResetStep
    |> listResetWithPSO
    |> viewportScissorStep
    |> omSetStep
    |> clearStep
    |> drawStep
    |> closeStep
    |> executeStep
    |> presentStep

/-- The triangle variant's `Render` (src/main.cpp lines 283-326). -/
def renderTri (obs : Nat) (f : Frame) : Frame :=
  advanceStep (waitForGPUStep obs (signalStep (recordSubmitTri f)))

/-- The record-and-submit part of the clear-only variant's `Render`
(src/dx12window.cpp lines 97-115): reset with null PSO, clear at the
computed RTV handle, close, execute, present.  No viewport/scissor, no
`OMSetRenderTargets`, no draw. -/
def recordSubmitClear (f : Frame) : Frame :=
  f |> allocResetStep
    |> listResetNull
    |> clearStep
    |> closeStep
    |> executeStep
    |> presentStep

/-- The clear-only variant's `Render` (src/dx12window.cpp
lines 97-126). -/
def renderClear (obs : Nat) (f : Frame) : Frame :=
  advanceStep (waitForGPUStep obs (signalStep (recordSubmitClear f)))

/-- The API-call log a triangle frame appends, written out explicitly
in the order of spec section 4.H. -/
def triFrameLog (g : Globals) (w : World) (obs : Nat) : List GpuEvent :=
  [ .allocatorReset,
    .listReset (some g.pipelineState),
    .rsSetViewports 1 mainViewport,
    .rsSetScissorRects 1 mainScissor,
    .omSetRenderTargets 1 (rtvHandle g w) false none,
    .clearRenderTargetView (rtvHandle g w) clearColor,
    .iaSetPrimitiveTopology .triangleList,
    .iaSetVertexBuffers 0 1 g.vbView,
    .drawInstanced 3 1 0 0,
    .close,
    .executeCommandLists 1,
    .present 1 0,
    .signal g.fence g.fenceValue ]
  ++ (if obs < g.fenceValue then
        [ .setEventOnCompletion g.fenceValue g.fenceEvent,
          .waitForSingleObjectInfinite g.fenceEvent ]
      else [])

/-- Whether an event is a resource-state transition barrier. -/
def isResBarrier : GpuEvent → Bool
  | .resourceBarrier _ _ _ => true
  | _ => false

/-- Number of resource barriers in a call log. -/
def barrierCount (l : List GpuEvent) : Nat :=
  l.countP isResBarrier

/-- The state produced by `InitD3D12` as far as the per-frame protocol
is concerned (main.cpp lines 113-114 and 142-143, dx12window.cpp
lines 65 and 90-91): `g_frameIndex` is set from
`GetCurrentBackBufferIndex`, the fence is created with value 0 and
nothing yet signalled, and `g_fenceValue` is set to 1. -/
def initFrame (g : Globals) (w : World) : Frame :=
  { g := { g with frameIndex := w.scIndex, fenceValue := 1 },
    w := { w with fenceCompleted := 0, lastSignaled := 0 },
    log := [] }

/-- Discard the call log (used to give each frame of a run its own
log). -/
def clearLog (f : Frame) : Frame :=
  { f with log := [] }

/-- The state after initialization followed by `n` triangle frames;
`obs` gives, for each frame number (1-based), the fence progress
observed by that frame's `GetCompletedValue` call. -/
def runTri (g : Globals) (w : World) (obs : Nat → Nat) : Nat → Frame
  | 0 => initFrame g w
  | n + 1 => renderTri (obs (n + 1)) (clearLog (runTri g w obs n))

/-- Every intermediate state of one triangle frame, in execution
order: entry, after each recorded/issued call group, after the signal,
after the wait, and after the counter/frame-index advance. -/
def triPoints (obs : Nat) (f : Frame) : List Frame :=
  [ f,
    allocResetStep f,
    listResetWithPSO (allocResetStep f),
    viewportScissorStep (listResetWithPSO (allocResetStep f)),
    omSetStep (viewportScissorStep (listResetWithPSO (allocResetStep f))),
    clearStep (omSetStep (viewportScissorStep (listResetWithPSO (allocResetStep f)))),
    drawStep (clearStep (omSetStep (viewportScissorStep (listResetWithPSO (allocResetStep f))))),
    closeStep (drawStep (clearStep (omSetStep (viewportScissorStep (listResetWithPSO (allocResetStep f)))))),
    executeStep (closeStep (drawStep (clearStep (omSetStep (viewportScissorStep (listResetWithPSO (allocResetStep f))))))),
    recordSubmitTri f,
    signalStep (recordSubmitTri f),
    waitForGPUStep obs (signalStep (recordSubmitTri f)),
    renderTri obs f ]

/-- Every state of a run of `n` triangle frames, initialization
included: the state after init, then all intermediate states of each
frame. -/
def runTriPoints (g : Globals) (w : World) (obs : Nat → Nat) : Nat → List Frame
  | 0 => [initFrame g w]
  | n + 1 => runTriPoints g w obs n ++ triPoints (obs (n + 1)) (clearLog (runTri g w obs n))

/-- The fence invariant of spec section 3: the completed value never
exceeds the last value signalled on the queue, which never exceeds the
CPU-side counter. -/
def fenceInv (f : Frame) : Prop :=
  f.w.fenceCompleted ≤ f.w.lastSignaled ∧ f.w.lastSignaled ≤ f.g.fenceValue

instance (f : Frame) : Decidable (fenceInv f) := by
  unfold fenceInv
  infer_instance

/-- The fence state holding at every frame boundary (after init and
after each complete frame): the completed value never exceeds the last
signalled value, and the CPU counter is one past the last signalled
value. -/
def fenceBoundary (f : Frame) : Prop :=
  f.w.fenceCompleted ≤ f.w.lastSignaled ∧ f.w.lastSignaled + 1 = f.g.fenceValue

instance (f : Frame) : Decidable (fenceBoundary f) := by
  unfold fenceBoundary
  infer_instance

/-- A maximally eager GPU-progress oracle: when frame `k` polls
`GetCompletedValue`, the fence has already reached `k` (the value just
signalled), so no frame ever blocks. -/
def eagerObs : Nat → Nat := fun k => k

/-- Command-list lifecycle events.  `create` is
`CreateCommandList` (which produces the list in the open, recording
state); `reset` and `close` are `CommandList::Reset` and
`CommandList::Close`. -/
inductive CLEvent where
  | create
  | reset
  | close
deriving DecidableEq, BEq, Repr

/-- The command-list event history of a whole execution with `n`
frames: `InitD3D12` creates the list open and immediately closes it
(main.cpp lines 136-139, dx12window.cpp lines 86-87), then every
`Render` resets and closes it (main.cpp lines 288 and 310,
dx12window.cpp lines 102 and 110). -/
def clHistory : Nat → List CLEvent
  | 0 => [.create, .close]
  | n + 1 => clHistory n ++ [.reset, .close]

/-- Checker for the claim as stated: scan the history keeping the
number `r` of `Reset` calls since the previous `Close`; every `Close`
must find exactly one.  Creation does not count as a `Reset` call.
Returns the final count if every `Close` matched, `none` otherwise. -/
def resetsSinceClose (r : Nat) : List CLEvent → Option Nat
  | [] => some r
  | .create :: t => resetsSinceClose r t
  | .reset :: t => resetsSinceClose (r + 1) t
  | .close :: t => if r = 1 then resetsSinceClose 0 t else none

/-- Checker for the amended claim: every `Close` must be preceded by
exactly one opening event — creation (which opens the list) or a
`Reset` — since the previous `Close`. -/
def opensSinceClose (r : Nat) : List CLEvent → Option Nat
  | [] => some r
  | .create :: t => opensSinceClose (r + 1) t
  | .reset :: t => opensSinceClose (r + 1) t
  | .close :: t => if r = 1 then opensSinceClose 0 t else none

/-- Host-side events of `WinMain` before the message loop. -/
inductive HostEvent where
  | registerClass
  | createWindow
  | showWindow
  | updateWindow
  | initD3D12 (hwnd : Option Nat)
  | hostInitError
deriving DecidableEq, Repr

/-- Translated from `WinMain` of src/main.cpp lines 344-362: the
result of `RegisterClass` is discarded (first argument unused, as in
the source), the window handle returned by `CreateWindowEx` is passed
on to `ShowWindow`, `UpdateWindow` and `InitD3D12` without any null
check, and no host-init error is ever raised. -/
def winMainStartupTri (_classReg : Option Nat) (hwnd : Option Nat) : List HostEvent :=
  [ .registerClass, .createWindow, .showWindow, .updateWindow, .initD3D12 hwnd ]

/-- Translated from `WinMain` of src/dx12window.cpp lines 139-156:
same as the triangle variant but with no `UpdateWindow` call; again no
null check and no host-init error. -/
def winMainStartupClear (_classReg : Option Nat) (hwnd : Option Nat) : List HostEvent :=
  [ .registerClass, .createWindow, .showWindow, .initD3D12 hwnd ]

/-- The terminating control-flow paths of `WinMain` (main.cpp
lines 344-378, dx12window.cpp lines 139-174): the quit path reaches
the `cleanup` label via the `WM_QUIT` goto; an exception thrown inside
`InitD3D12` or `Render` propagates out of `WinMain` unhandled. -/
inductive ExitPath where
  | quitAfterFrames (n : Nat)
  | initFailure
  | renderFailure (frame : Nat)
deriving DecidableEq, Repr

/-- Number of `CloseHandle(g_fenceEvent)` calls on each terminating
path: only the `cleanup` label closes the handle (main.cpp line 377,
dx12window.cpp line 172); an escaping exception runs no cleanup, since
`WinMain` has no try/catch and no RAII wrapper around the event. -/
def fenceEventCloseCount : ExitPath → Nat
  | .quitAfterFrames _ => 1
  | .initFailure => 0
  | .renderFailure _ => 0

/-- Vertex record, translated from `struct Vertex { float pos[3];
float col[4]; }` (main.cpp line 45). -/
structure Vertex where
  pos : ℚ × ℚ × ℚ
  col : ℚ × ℚ × ℚ × ℚ
deriving DecidableEq, Repr

/-- Value of `sizeof(Vertex)`: seven 4-byte floats, no padding. -/
def vertexSizeBytes : Nat := 7 * 4

/-- The vertex array literal of main.cpp lines 239-244. -/
def triangleVertices : List Vertex :=
  [ { pos := (0, 1/2, 0), col := (1, 0, 0, 1) },
    { pos := (-(1/2), -(1/2), 0), col := (0, 1, 0, 1) },
    { pos := (1/2, -(1/2), 0), col := (0, 0, 1, 1) } ]

/-- Value of `sizeof(vertices)` (main.cpp line 245). -/
def vbSizeBytes : Nat := triangleVertices.length * vertexSizeBytes

/-- Heap types the source mentions. -/
inductive HeapType where
  | upload
deriving DecidableEq, Repr

/-- Resource dimensions the source mentions. -/
inductive ResDimension where
  | buffer
deriving DecidableEq, Repr

/-- Initial resource states the source mentions. -/
inductive ResInitState where
  | genericRead
deriving DecidableEq, Repr

/-- Everything the vertex-buffer creation block does, as a record. -/
structure VBCreation where
  heapType : HeapType
  dimension : ResDimension
  widthBytes : Nat
  initialState : ResInitState
  mapCalls : List (Nat × Option (Nat × Nat))
  copiedBytes : Nat
  contents : List Vertex
  unmapCalls : List (Nat × Option (Nat × Nat))
  view : VBView
deriving DecidableEq, Repr

/-- Translated from the vertex-buffer block of src/main.cpp
lines 237-277: committed buffer of `sizeof(vertices)` bytes on an
UPLOAD heap in state GENERIC_READ; one `Map(0, &readRange(0,0))`; a
`memcpy` of the full vertex array; one `Unmap(0, nullptr)`; a view
recording the GPU address, `sizeof(Vertex)` as the stride, and
`_countof(vertices)` in the size-in-elements field. -/
def createVertexBuffer (gpuAddress : Nat) : VBCreation :=
  { heapType := .upload,
    dimension := .buffer,
    widthBytes := vbSizeBytes,
    initialState := .genericRead,
    mapCalls := [(0, some (0, 0))],
    copiedBytes := vbSizeBytes,
    contents := triangleVertices,
    unmapCalls := [(0, none)],
    view := { bufferLocation := gpuAddress,
              strideInBytes := vertexSizeBytes,
              sizeInElements := triangleVertices.length } }

/-- A concrete assignment of the opaque handles, used to instantiate
universally quantified theorems at one input. -/
def sampleGlobals : Globals :=
  { device := 1, swapChain := 2, commandQueue := 3, commandAllocator := 4,
    commandList := 5, rtvHeap := 6, rtvHeapStart := 4096, fence := 7,
    fenceValue := 1, fenceEvent := 8, renderTarget0 := 9, renderTarget1 := 10,
    frameIndex := 0, rootSig := 11, pipelineState := 12, vertexBuffer := 13,
    vbView := { bufferLocation := 65536, strideInBytes := 28, sizeInElements := 3 } }

/-- A concrete external world: back-buffer index 0, fence at 0,
nothing signalled, RTV stride 32. -/
def sampleWorld : World :=
  { scIndex := 0, fenceCompleted := 0, lastSignaled := 0, rtvStride := 32 }

/-- A concrete frame state at the start of a frame. -/
def sampleFrame : Frame :=
  { g := sampleGlobals, w := sampleWorld, log := [] }

end DX12

namespace DX12

theorem emit_g (e : GpuEvent) (f : Frame) : (emit e f).g = f.g := rfl

theorem emit_w (e : GpuEvent) (f : Frame) : (emit e f).w = f.w := rfl

/-- The record-and-submit part of a triangle frame changes only the
swap chain index (via Present) and the log. -/
theorem recordSubmitTri_eq (f : Frame) :
    recordSubmitTri f =
      { g := f.g,
        w := { f.w with scIndex := (f.w.scIndex + 1) % 2 },
        log := f.log ++
          [ .allocatorReset,
            .listReset (some f.g.pipelineState),
            .rsSetViewports 1 mainViewport,
            .rsSetScissorRects 1 mainScissor,
            .omSetRenderTargets 1 (rtvHandle f.g f.w) false none,
            .clearRenderTargetView (rtvHandle f.g f.w) clearColor,
            .iaSetPrimitiveTopology .triangleList,
            .iaSetVertexBuffers 0 1 f.g.vbView,
            .drawInstanced 3 1 0 0,
            .close,
            .executeCommandLists 1,
            .present 1 0 ] } := by
  simp [recordSubmitTri, allocResetStep, listResetWithPSO, viewportScissorStep,
    omSetStep, clearStep, drawStep, closeStep, executeStep, presentStep, emit,
    rtvHandle]

/-- The record-and-submit part of a clear-only frame changes only the
swap chain index (via Present) and the log. -/
theorem recordSubmitClear_eq (f : Frame) :
    recordSubmitClear f =
      { g := f.g,
        w := { f.w with scIndex := (f.w.scIndex + 1) % 2 },
        log := f.log ++
          [ .allocatorReset,
            .listReset none,
            .clearRenderTargetView (rtvHandle f.g f.w) clearColor,
            .close,
            .executeCommandLists 1,
            .present 1 0 ] } := by
  simp [recordSubmitClear, allocResetStep, listResetNull, clearStep, closeStep,
    executeStep, presentStep, emit, rtvHandle]

/-- C1: in the triangle variant, every `Render` call records and
submits one frame in exactly the order of spec section 4.H: allocator
reset; list reset with the pipeline state; viewport and scissor
800x600; RTV handle = heap start + frameIndex * device-reported
stride, bound as the sole render target; clear to (0.2, 0.4, 0.6,
1.0); TRIANGLELIST topology, vertex buffer at slot 0,
DrawInstanced(3,1,0,0); close and execute; Present(1, 0); signal
nextFenceValue, wait until CompletedValue reaches it, increment
nextFenceValue; finally set frameIndex from the swap chain's
CurrentBackBufferIndex. -/
theorem render_order_c1 (g : Globals) (w : World) (obs : Nat) :
    (renderTri obs ⟨g, w, []⟩).log = triFrameLog g w obs
    ∧ (renderTri obs ⟨g, w, []⟩).g.fenceValue = g.fenceValue + 1
    ∧ (renderTri obs ⟨g, w, []⟩).w.fenceCompleted ≥ g.fenceValue
    ∧ (renderTri obs ⟨g, w, []⟩).g.frameIndex
        = (renderTri obs ⟨g, w, []⟩).w.scIndex := by
  unfold renderTri triFrameLog
  rw [recordSubmitTri_eq]
  unfold signalStep waitForGPUStep advanceStep emit
  by_cases h : obs < g.fenceValue
  · simp [h]
  · simp [h]
    omega

/-- C2: the claim requires a PRESENT to RENDER_TARGET barrier before
the clear/draw and a RENDER_TARGET to PRESENT barrier before Present;
the recorded command list of a frame contains no resource barrier at
all, in either variant.  (The spec's section 9 itself flags this
omission in the source.) -/
theorem no_barriers_c2 (g : Globals) (w : World) (obs : Nat) :
    barrierCount (renderTri obs ⟨g, w, []⟩).log = 0
    ∧ barrierCount (renderClear obs ⟨g, w, []⟩).log = 0 := by
  constructor
  · unfold renderTri
    rw [recordSubmitTri_eq]
    unfold signalStep waitForGPUStep advanceStep emit
    by_cases h : obs < g.fenceValue <;>
      simp [h, barrierCount, List.countP_cons, List.countP_append, isResBarrier]
  · unfold renderClear
    rw [recordSubmitClear_eq]
    unfold signalStep waitForGPUStep advanceStep emit
    by_cases h : obs < g.fenceValue <;>
      simp [h, barrierCount, List.countP_cons, List.countP_append, isResBarrier]

/-- C10: in both variants, a `Render` call that returns normally
changes exactly two pieces of program state — the CPU fence counter
(incremented by 1) and `frameIndex` (set to the swap chain's current
back-buffer index) — and leaves every other global (device, swap
chain, queue, allocator, list, RTV heap and its start handle, fence,
fence event, both render-target handles, root signature, pipeline
state, vertex buffer, vertex-buffer view) unchanged. -/
theorem frame_effect_c10 (f : Frame) (obs : Nat) :
    ((renderTri obs f).g.device = f.g.device
     ∧ (renderTri obs f).g.swapChain = f.g.swapChain
     ∧ (renderTri obs f).g.commandQueue = f.g.commandQueue
     ∧ (renderTri obs f).g.commandAllocator = f.g.commandAllocator
     ∧ (renderTri obs f).g.commandList = f.g.commandList
     ∧ (renderTri obs f).g.rtvHeap = f.g.rtvHeap
     ∧ (renderTri obs f).g.rtvHeapStart = f.g.rtvHeapStart
     ∧ (renderTri obs f).g.fence = f.g.fence
     ∧ (renderTri obs f).g.fenceEvent = f.g.fenceEvent
     ∧ (renderTri obs f).g.renderTarget0 = f.g.renderTarget0
     ∧ (renderTri obs f).g.renderTarget1 = f.g.renderTarget1
     ∧ (renderTri obs f).g.rootSig = f.g.rootSig
     ∧ (renderTri obs f).g.pipelineState = f.g.pipelineState
     ∧ (renderTri obs f).g.vertexBuffer = f.g.vertexBuffer
     ∧ (renderTri obs f).g.vbView = f.g.vbView
     ∧ (renderTri obs f).g.fenceValue = f.g.fenceValue + 1
     ∧ (renderTri obs f).g.frameIndex = (renderTri obs f).w.scIndex)
    ∧ ((renderClear obs f).g.device = f.g.device
     ∧ (renderClear obs f).g.swapChain = f.g.swapChain
     ∧ (renderClear obs f).g.commandQueue = f.g.commandQueue
     ∧ (renderClear obs f).g.commandAllocator = f.g.commandAllocator
     ∧ (renderClear obs f).g.commandList = f.g.commandList
     ∧ (renderClear obs f).g.rtvHeap = f.g.rtvHeap
     ∧ (renderClear obs f).g.rtvHeapStart = f.g.rtvHeapStart
     ∧ (renderClear obs f).g.fence = f.g.fence
     ∧ (renderClear obs f).g.fenceEvent = f.g.fenceEvent
     ∧ (renderClear obs f).g.renderTarget0 = f.g.renderTarget0
     ∧ (renderClear obs f).g.renderTarget1 = f.g.renderTarget1
     ∧ (renderClear obs f).g.rootSig = f.g.rootSig
     ∧ (renderClear obs f).g.pipelineState = f.g.pipelineState
     ∧ (renderClear obs f).g.vertexBuffer = f.g.vertexBuffer
     ∧ (renderClear obs f).g.vbView = f.g.vbView
     ∧ (renderClear obs f).g.fenceValue = f.g.fenceValue + 1
     ∧ (renderClear obs f).g.frameIndex = (renderClear obs f).w.scIndex) := by
  constructor
  · unfold renderTri
    rw [recordSubmitTri_eq]
    unfold signalStep waitForGPUStep advanceStep emit
    by_cases h : obs < f.g.fenceValue <;> simp [h]
  · unfold renderClear
    rw [recordSubmitClear_eq]
    unfold signalStep waitForGPUStep advanceStep emit
    by_cases h : obs < f.g.fenceValue <;> simp [h]

/-- C4: the end-of-frame wait with target `v` (the just-signalled
counter value): if the observed completed value is below `v`, it
registers the fence event for completion of `v` and blocks with an
infinite timeout until the event fires (after which the fence has
reached `v`); otherwise it returns immediately, the event untouched
and the log unchanged.  No timeout and no cancellation path exist. -/
theorem waitForGPU_c4 (f : Frame) (obs : Nat) :
    (obs < f.g.fenceValue →
      waitForGPUStep obs f =
        { f with
            w := { f.w with fenceCompleted := f.g.fenceValue },
            log := f.log ++
              [ .setEventOnCompletion f.g.fenceValue f.g.fenceEvent,
                .waitForSingleObjectInfinite f.g.fenceEvent ] })
    ∧ (f.g.fenceValue ≤ obs →
      waitForGPUStep obs f = { f with w := { f.w with fenceCompleted := obs } })
    ∧ f.g.fenceValue ≤ (waitForGPUStep obs f).w.fenceCompleted := by
  refine ⟨fun h => ?_, fun h => ?_, ?_⟩
  · simp [waitForGPUStep, emit, h]
  · simp [waitForGPUStep, emit, Nat.not_lt.mpr h]
  · unfold waitForGPUStep emit
    split
    · simp
    · simp
      omega

/-- The C4 theorem applied at a concrete frame state whose counter is
1: observing 0 takes the blocking branch, observing 5 the immediate
one. -/
theorem waitForGPU_c4_witness :
    waitForGPUStep 0 sampleFrame =
      { sampleFrame with
          w := { sampleFrame.w with fenceCompleted := sampleFrame.g.fenceValue },
          log := sampleFrame.log ++
            [ .setEventOnCompletion sampleFrame.g.fenceValue sampleFrame.g.fenceEvent,
              .waitForSingleObjectInfinite sampleFrame.g.fenceEvent ] }
    ∧ waitForGPUStep 5 sampleFrame =
      { sampleFrame with w := { sampleFrame.w with fenceCompleted := 5 } } :=
  ⟨(waitForGPU_c4 sampleFrame 0).1 (by decide),
   (waitForGPU_c4 sampleFrame 5).2.1 (by decide)⟩

theorem clearLog_g (f : Frame) : (clearLog f).g = f.g := rfl

theorem clearLog_w (f : Frame) : (clearLog f).w = f.w := rfl

theorem fenceBoundary_clearLog (f : Frame) :
    fenceBoundary (clearLog f) ↔ fenceBoundary f := Iff.rfl

/-- One triangle frame started at a frame boundary re-establishes the
boundary invariant, advances the CPU counter by one, and leaves the
fence completed value at least at the value signalled this frame. -/
theorem renderTri_fence_step (f : Frame) (obs : Nat)
    (hb : fenceBoundary f) (ho : obs ≤ f.g.fenceValue) :
    fenceBoundary (renderTri obs f)
    ∧ (renderTri obs f).g.fenceValue = f.g.fenceValue + 1
    ∧ f.g.fenceValue ≤ (renderTri obs f).w.fenceCompleted := by
  obtain ⟨h1, h2⟩ := hb
  unfold renderTri
  rw [recordSubmitTri_eq]
  unfold signalStep waitForGPUStep advanceStep emit fenceBoundary
  by_cases h : obs < f.g.fenceValue
  · simp [h]
    try omega
  · simp [h]
    try omega

theorem allocResetStep_g (f : Frame) : (allocResetStep f).g = f.g := rfl

theorem allocResetStep_w (f : Frame) : (allocResetStep f).w = f.w := rfl

theorem listResetWithPSO_g (f : Frame) : (listResetWithPSO f).g = f.g := rfl

theorem listResetWithPSO_w (f : Frame) : (listResetWithPSO f).w = f.w := rfl

theorem viewportScissorStep_g (f : Frame) : (viewportScissorStep f).g = f.g := rfl

theorem viewportScissorStep_w (f : Frame) : (viewportScissorStep f).w = f.w := rfl

theorem omSetStep_g (f : Frame) : (omSetStep f).g = f.g := rfl

theorem omSetStep_w (f : Frame) : (omSetStep f).w = f.w := rfl

theorem clearStep_g (f : Frame) : (clearStep f).g = f.g := rfl

theorem clearStep_w (f : Frame) : (clearStep f).w = f.w := rfl

theorem drawStep_g (f : Frame) : (drawStep f).g = f.g := rfl

theorem drawStep_w (f : Frame) : (drawStep f).w = f.w := rfl

theorem closeStep_g (f : Frame) : (closeStep f).g = f.g := rfl

theorem closeStep_w (f : Frame) : (closeStep f).w = f.w := rfl

theorem executeStep_g (f : Frame) : (executeStep f).g = f.g := rfl

theorem executeStep_w (f : Frame) : (executeStep f).w = f.w := rfl

theorem presentStep_g (f : Frame) : (presentStep f).g = f.g := rfl

theorem presentStep_w (f : Frame) :
    (presentStep f).w = { f.w with scIndex := (f.w.scIndex + 1) % 2 } := rfl

theorem signalStep_g (f : Frame) : (signalStep f).g = f.g := rfl

theorem signalStep_w (f : Frame) :
    (signalStep f).w = { f.w with lastSignaled := f.g.fenceValue } := rfl

theorem waitForGPUStep_g (obs : Nat) (f : Frame) : (waitForGPUStep obs f).g = f.g := by
  unfold waitForGPUStep
  split <;> rfl

theorem waitForGPUStep_w (obs : Nat) (f : Frame) :
    (waitForGPUStep obs f).w =
      { f.w with fenceCompleted := if obs < f.g.fenceValue then f.g.fenceValue else obs } := by
  unfold waitForGPUStep emit
  split <;> rename_i h <;> simp [h]

theorem advanceStep_g (f : Frame) :
    (advanceStep f).g = { f.g with fenceValue := f.g.fenceValue + 1,
                                   frameIndex := f.w.scIndex } := rfl

theorem advanceStep_w (f : Frame) : (advanceStep f).w = f.w := rfl

/-- The fence invariant holds at every intermediate point of a
triangle frame started at a frame boundary. -/
theorem triPoints_fenceInv (f : Frame) (obs : Nat)
    (hb : fenceBoundary f) (ho : obs ≤ f.g.fenceValue) :
    ∀ p ∈ triPoints obs f, fenceInv p := by
  obtain ⟨h1, h2⟩ := hb
  intro p hp
  simp only [triPoints, List.mem_cons, List.not_mem_nil, or_false] at hp
  rcases hp with rfl|rfl|rfl|rfl|rfl|rfl|rfl|rfl|rfl|rfl|rfl|rfl|rfl
  all_goals
    simp only [renderTri, recordSubmitTri, fenceInv, allocResetStep_g, allocResetStep_w,
      listResetWithPSO_g, listResetWithPSO_w, viewportScissorStep_g, viewportScissorStep_w,
      omSetStep_g, omSetStep_w, clearStep_g, clearStep_w, drawStep_g, drawStep_w,
      closeStep_g, closeStep_w, executeStep_g, executeStep_w, presentStep_g, presentStep_w,
      signalStep_g, signalStep_w, waitForGPUStep_g, waitForGPUStep_w, advanceStep_g,
      advanceStep_w]
  all_goals try simp
  all_goals try split
  all_goals omega

/-- Along a run, every frame boundary satisfies the boundary
invariant, the CPU counter after `n` frames is `n + 1`, and the fence
has completed at least `n`. -/
theorem runTri_fence (g : Globals) (w : World) (obs : Nat → Nat)
    (hobs : ∀ k, obs k ≤ k) (n : Nat) :
    fenceBoundary (runTri g w obs n)
    ∧ (runTri g w obs n).g.fenceValue = n + 1
    ∧ n ≤ (runTri g w obs n).w.fenceCompleted := by
  induction n with
  | zero =>
    refine ⟨⟨?_, ?_⟩, ?_, ?_⟩ <;> simp [runTri, initFrame]
  | succ n ih =>
    obtain ⟨hb, hv, hc⟩ := ih
    have hb2 : fenceBoundary (clearLog (runTri g w obs n)) :=
      (fenceBoundary_clearLog _).mpr hb
    have hv2 : (clearLog (runTri g w obs n)).g.fenceValue = n + 1 := hv
    have ho : obs (n + 1) ≤ (clearLog (runTri g w obs n)).g.fenceValue := by
      rw [hv2]
      exact hobs (n + 1)
    have step := renderTri_fence_step (clearLog (runTri g w obs n)) (obs (n + 1)) hb2 ho
    refine ⟨step.1, ?_, ?_⟩
    · show (renderTri (obs (n + 1)) (clearLog (runTri g w obs n))).g.fenceValue = n + 1 + 1
      rw [step.2.1, hv2]
    · show n + 1 ≤ (renderTri (obs (n + 1)) (clearLog (runTri g w obs n))).w.fenceCompleted
      have := step.2.2
      omega

/-- C3: the fence invariant CompletedValue ≤ last signalled value ≤
CPU counter holds at every point of every execution (any number of
frames, any admissible GPU progress); the fence is created at 0 with
the CPU counter at 1; and after frame `n` completes the completed
value is at least `n` while the CPU counter equals `n + 1`.  The
hypothesis `hobs` states that the fence progress a frame observes
cannot exceed the value last signalled on the queue. -/
theorem fence_invariant_c3 (g : Globals) (w : World) (obs : Nat → Nat)
    (hobs : ∀ k, obs k ≤ k) (n : Nat) :
    (∀ p ∈ runTriPoints g w obs n, fenceInv p)
    ∧ (runTri g w obs 0).w.fenceCompleted = 0
    ∧ (runTri g w obs 0).g.fenceValue = 1
    ∧ n ≤ (runTri g w obs n).w.fenceCompleted
    ∧ (runTri g w obs n).g.fenceValue = n + 1 := by
  refine ⟨?_, rfl, rfl, (runTri_fence g w obs hobs n).2.2, (runTri_fence g w obs hobs n).2.1⟩
  induction n with
  | zero =>
    intro p hp
    simp only [runTriPoints, List.mem_singleton] at hp
    subst hp
    exact ⟨Nat.le_refl 0, Nat.zero_le 1⟩
  | succ n ih =>
    intro p hp
    rcases List.mem_append.mp hp with h | h
    · exact ih p h
    · obtain ⟨hb, hv, -⟩ := runTri_fence g w obs hobs n
      have ho : obs (n + 1) ≤ (clearLog (runTri g w obs n)).g.fenceValue := by
        show obs (n + 1) ≤ (runTri g w obs n).g.fenceValue
        rw [hv]
        exact hobs (n + 1)
      exact triPoints_fenceInv _ _ ((fenceBoundary_clearLog _).mpr hb) ho p h

/-- The C3 theorem applied at a concrete run of two frames with the
eager GPU oracle. -/
theorem fence_invariant_c3_witness :
    2 ≤ (runTri sampleGlobals sampleWorld eagerObs 2).w.fenceCompleted
    ∧ (runTri sampleGlobals sampleWorld eagerObs 2).g.fenceValue = 3
    ∧ (runTri sampleGlobals sampleWorld eagerObs 0).w.fenceCompleted = 0
    ∧ (runTri sampleGlobals sampleWorld eagerObs 0).g.fenceValue = 1 :=
  ⟨(fence_invariant_c3 sampleGlobals sampleWorld eagerObs (fun k => Nat.le_refl k) 2).2.2.2.1,
   (fence_invariant_c3 sampleGlobals sampleWorld eagerObs (fun k => Nat.le_refl k) 2).2.2.2.2,
   (fence_invariant_c3 sampleGlobals sampleWorld eagerObs (fun k => Nat.le_refl k) 2).2.1,
   (fence_invariant_c3 sampleGlobals sampleWorld eagerObs (fun k => Nat.le_refl k) 2).2.2.1⟩

/-- One triangle frame ends with `frameIndex` equal to the swap
chain's current index, which Present has advanced modulo 2. -/
theorem renderTri_index_step (f : Frame) (obs : Nat) :
    (renderTri obs f).g.frameIndex = (renderTri obs f).w.scIndex
    ∧ (renderTri obs f).w.scIndex = (f.w.scIndex + 1) % 2 := by
  unfold renderTri
  rw [recordSubmitTri_eq]
  unfold signalStep waitForGPUStep advanceStep emit
  by_cases h : obs < f.g.fenceValue <;> simp [h]

/-- C5: at every point outside a `Render` call (after `InitD3D12` and
after each complete frame), `frameIndex` equals the swap chain's
`CurrentBackBufferIndex` and lies in {0, 1}, so the RTV offset
`frameIndex * stride` addresses a valid slot of the 2-descriptor RTV
heap. -/
theorem frameIndex_c5 (g : Globals) (w : World) (obs : Nat → Nat) (n : Nat)
    (h : w.scIndex < 2) :
    (runTri g w obs n).g.frameIndex = (runTri g w obs n).w.scIndex
    ∧ (runTri g w obs n).g.frameIndex < 2 := by
  induction n with
  | zero => exact ⟨rfl, h⟩
  | succ n ih =>
    have step := renderTri_index_step (clearLog (runTri g w obs n)) (obs (n + 1))
    refine ⟨step.1, ?_⟩
    show (renderTri (obs (n + 1)) (clearLog (runTri g w obs n))).g.frameIndex < 2
    rw [step.1, step.2]
    exact Nat.mod_lt _ (by norm_num)

/-- The C5 theorem applied at a concrete three-frame run starting at
back-buffer index 0. -/
theorem frameIndex_c5_witness :
    (runTri sampleGlobals sampleWorld eagerObs 3).g.frameIndex
      = (runTri sampleGlobals sampleWorld eagerObs 3).w.scIndex
    ∧ (runTri sampleGlobals sampleWorld eagerObs 3).g.frameIndex < 2 :=
  frameIndex_c5 sampleGlobals sampleWorld eagerObs 3 (by decide)

/-- C6 counterexample: in the execution history with one frame, the
`Close` issued by `InitD3D12` immediately after creating the list is
preceded by zero `CommandList::Reset` calls, so the checker for
"every Close is preceded by exactly one Reset since the previous
Close" rejects the program's own history. -/
theorem close_without_reset_c6_cex :
    resetsSinceClose 0 (clHistory 1) = none := by decide

theorem opensSinceClose_append (l1 l2 : List CLEvent) (r : Nat) :
    opensSinceClose r (l1 ++ l2)
      = (opensSinceClose r l1).bind fun s => opensSinceClose s l2 := by
  induction l1 generalizing r with
  | nil => simp [opensSinceClose]
  | cons e t ih =>
    cases e
    · simpa only [List.cons_append, opensSinceClose] using ih (r + 1)
    · simpa only [List.cons_append, opensSinceClose] using ih (r + 1)
    · simp only [List.cons_append, opensSinceClose]
      split
      · exact ih 0
      · simp

/-- C6 amended: in the whole execution history, every `Close` is
preceded by exactly one opening event since the previous `Close` — the
creation of the list (which produces it in the open state) for the
initial `Close` of `InitD3D12`, and a `Reset` call for the `Close` of
every frame; the history contains `n + 1` closes but only `n` resets. -/
theorem close_matched_c6 (n : Nat) :
    opensSinceClose 0 (clHistory n) = some 0
    ∧ (clHistory n).count CLEvent.close = n + 1
    ∧ (clHistory n).count CLEvent.reset = n := by
  induction n with
  | zero => decide
  | succ n ih =>
    obtain ⟨h1, h2, h3⟩ := ih
    refine ⟨?_, ?_, ?_⟩
    · show opensSinceClose 0 (clHistory n ++ [.reset, .close]) = some 0
      rw [opensSinceClose_append, h1]
      decide
    · show (clHistory n ++ [CLEvent.reset, CLEvent.close]).count CLEvent.close = n + 1 + 1
      have hc : List.count CLEvent.close [CLEvent.reset, CLEvent.close] = 1 := by decide
      rw [List.count_append, h2, hc]
    · show (clHistory n ++ [CLEvent.reset, CLEvent.close]).count CLEvent.reset = n + 1
      have hr : List.count CLEvent.reset [CLEvent.reset, CLEvent.close] = 1 := by decide
      rw [List.count_append, h3, hr]

/-- C7: when class registration and window creation both return null,
`WinMain` of either variant still proceeds to `InitD3D12` with the
null window handle and never raises a host-init error — the results of
`RegisterClass` and `CreateWindowEx` are not checked. -/
theorem hostInit_unchecked_c7 :
    HostEvent.initD3D12 none ∈ winMainStartupTri none none
    ∧ HostEvent.hostInitError ∉ winMainStartupTri none none
    ∧ HostEvent.initD3D12 none ∈ winMainStartupClear none none
    ∧ HostEvent.hostInitError ∉ winMainStartupClear none none := by decide

/-- C8: the vertex resource holds exactly the three 28-byte vertices
(0, 0.5, 0) red, (-0.5, -0.5, 0) green, (0.5, -0.5, 0) blue, all with
alpha 1, in an 84-byte committed buffer on an UPLOAD heap created in
state GENERIC_READ, mapped exactly once with read range (0, 0), filled
by a bulk copy of the full 84 bytes, unmapped once with a null written
range; the view records the buffer's GPU address, stride 28 and
size-in-elements 3. -/
theorem vertexBuffer_c8 (addr : Nat) :
    (createVertexBuffer addr).contents =
      [ { pos := (0, 1/2, 0), col := (1, 0, 0, 1) },
        { pos := (-(1/2), -(1/2), 0), col := (0, 1, 0, 1) },
        { pos := (1/2, -(1/2), 0), col := (0, 0, 1, 1) } ]
    ∧ (createVertexBuffer addr).contents.length = 3
    ∧ vertexSizeBytes = 28
    ∧ (createVertexBuffer addr).widthBytes = 84
    ∧ (createVertexBuffer addr).copiedBytes = (createVertexBuffer addr).widthBytes
    ∧ (createVertexBuffer addr).heapType = HeapType.upload
    ∧ (createVertexBuffer addr).dimension = ResDimension.buffer
    ∧ (createVertexBuffer addr).initialState = ResInitState.genericRead
    ∧ (createVertexBuffer addr).mapCalls = [(0, some (0, 0))]
    ∧ (createVertexBuffer addr).unmapCalls = [(0, none)]
    ∧ (createVertexBuffer addr).view.bufferLocation = addr
    ∧ (createVertexBuffer addr).view.strideInBytes = 28
    ∧ (createVertexBuffer addr).view.sizeInElements = 3 := by
  simp [createVertexBuffer, triangleVertices, vertexSizeBytes, vbSizeBytes]

/-- C9: the fence OS event handle is closed exactly once on the
normal-quit path (the `cleanup` label), but zero times — not once — on
the terminating paths where initialization or a frame raises an error,
because the escaping exception bypasses the `cleanup` label. -/
theorem fenceEventClose_c9 :
    fenceEventCloseCount (ExitPath.quitAfterFrames 5) = 1
    ∧ fenceEventCloseCount ExitPath.initFailure = 0
    ∧ fenceEventCloseCount (ExitPath.renderFailure 1) = 0 := by decide

end DX12
